import Mathlib

/-!
Shallow embedding of the session + prompt-assembly + streaming-relay core of
`src/server.py` (a FastAPI chatbot backend), together with proofs settling the
frozen claims about it.

Conventions of the embedding:
* Python strings are Lean `String`; `str.strip()` is `pyStrip`; substring tests
  (`"x" in s`) are `pyContains`.
* The global dict `_SESSIONS : Dict[str, List[dict]]` is an association list
  `Sessions`; dict `.get(sid, [])`, `.pop(sid, None)` and assignment are
  `Sessions.getHist`, `Sessions.pop`, `Sessions.remove`/`Sessions.set`.
* The configuration globals (`MAX_TURNS`, `MAX_PROMPT_CHARS`,
  `OPENROUTER_API_KEY`, `DEFAULT_SYSTEM_PROMPT`, `SHOW_THINKING_SUMMARY`) are
  fields of `Env`, passed explicitly.
* Network effects are passed in as data: the non-streaming upstream call's
  outcome is an `OnceResult` argument; the streaming upstream is a list of
  `Attempt` outcomes, one per `requests.post(..., stream=True)` call the retry
  loop makes.
* The SSE frame parsing (`json.loads` and the nested `choices[0].delta.content`
  lookup) is abstracted by the `Payload` inductive: `deltaContent c` is a frame
  that parses and carries content `c`, `noContent` a frame that parses without
  usable content, `malformed raw` a frame on which `json.loads` raises, `done`
  the literal `[DONE]` terminator.
* `threading.Lock` is elided in the functional models (the code under a lock is
  a single atomic state transition here); it is modelled explicitly, as a
  non-reentrant lock whose re-acquisition blocks forever (`Option`-valued
  execution, `none` = never returns), in the `lockedCommitTurn` / `lockedClear`
  definitions that claim C1 is about.
-/

namespace Chatbot

/-- Model of Python `str.strip()`: drop whitespace from both ends. -/
def pyStrip (s : String) : String :=
  String.mk (((s.data.dropWhile Char.isWhitespace).reverse.dropWhile Char.isWhitespace).reverse)

/-- Helper for `pyContains`: does `pat` occur as a contiguous sublist of the
character list? Structural recursion on the haystack. -/
def containsChars (pat : List Char) : List Char → Bool
  | [] => pat.isEmpty
  | c :: rest => pat.isPrefixOf (c :: rest) || containsChars pat rest

/-- Model of Python `pat in hay` on strings. -/
def pyContains (hay pat : String) : Bool :=
  containsChars pat.data hay.data

/-- One chat message: a `{"role": ..., "content": ...}` dict of the source. -/
structure Message where
  role : String
  content : String
deriving DecidableEq

/-- The global `_SESSIONS: Dict[str, List[Dict]]`, as an association list. -/
abbrev Sessions := List (String × List Message)

/-- `_SESSIONS.get(sid, [])` (the `.copy()` is identity on immutable data). -/
def Sessions.getHist : Sessions → String → List Message
  | [], _ => []
  | (k, v) :: rest, sid => if k = sid then v else Sessions.getHist rest sid

/-- Does the dict have an entry for this key? -/
def Sessions.hasKey : Sessions → String → Bool
  | [], _ => false
  | (k, _) :: rest, sid => k = sid || Sessions.hasKey rest sid

/-- `_SESSIONS.pop(sid, None)`: remove the entry for `sid` if present. -/
def Sessions.pop : Sessions → String → Sessions
  | [], _ => []
  | (k, v) :: rest, sid =>
    if k = sid then Sessions.pop rest sid else (k, v) :: Sessions.pop rest sid

/-- `_SESSIONS[sid] = hist`: update in place, or append a fresh entry. -/
def Sessions.set : Sessions → String → List Message → Sessions
  | [], sid, v => [(sid, v)]
  | (k, w) :: rest, sid, v =>
    if k = sid then (k, v) :: rest else (k, w) :: Sessions.set rest sid v

/-- Python slice `l[-m:]` for a natural `m` (as used on histories): for `m = 0`
this is `l[-0:] = l[0:]`, the WHOLE list, not the empty one; for `m > 0` it is
the last `min m (length l)` elements. -/
def pySliceLast {α : Type} (l : List α) (m : Nat) : List α :=
  if m = 0 then l else l.drop (l.length - m)

/-- The history update performed (under the lock) after a successful turn, in
both `chat` (lines 244-252) and `event_generator` (lines 402-409):
append the user and assistant messages, then trim to the last
`MAX_TURNS * 2` entries when longer than that. -/
def commitHist (hist : List Message) (userMsg assistantMsg : String) (maxTurns : Nat) :
    List Message :=
  let h := hist ++ [⟨"user", userMsg⟩, ⟨"assistant", assistantMsg⟩]
  let maxMessages := maxTurns * 2
  if maxMessages < h.length then pySliceLast h maxMessages else h

/-- Iterated commits starting from a given history (one entry per turn:
user message, assistant reply). -/
def runCommits (turns : List (String × String)) (maxTurns : Nat) : List Message :=
  turns.foldl (fun h t => commitHist h t.1 t.2 maxTurns) []

/-- `budget = max(1000, MAX_PROMPT_CHARS)` of `_build_messages` (line 160). -/
def effectiveBudget (maxPromptChars : Nat) : Nat := max 1000 maxPromptChars

/-- The character-budget loop of `_build_messages` (lines 161-169): walk the
trimmed history newest-first, stop once adding the next message would exceed
the budget — except that the first message is always taken (`len(accum) > 0`
guards the break). `accum` is built newest-first and reversed by the caller. -/
def charBudgetLoop (budget : Nat) : List Message → Nat → List Message → List Message
  | [], _, accum => accum
  | m :: rest, total, accum =>
    if budget < total + m.content.length ∧ accum ≠ [] then accum
    else charBudgetLoop budget rest (total + m.content.length) (accum ++ [⟨m.role, m.content⟩])

/-- `_build_messages(system_prompt, history, user_message)` (lines 151-177),
with the globals `MAX_TURNS` and `MAX_PROMPT_CHARS` passed explicitly. -/
def _build_messages (systemPrompt : String) (history : List Message) (userMessage : String)
    (maxTurns maxPromptChars : Nat) : List Message :=
  let maxMessages := maxTurns * 2
  let trimmedHist := if 0 < maxMessages then pySliceLast history maxMessages else history
  let budget := effectiveBudget maxPromptChars
  let accum := (charBudgetLoop budget trimmedHist.reverse 0 []).reverse
  ⟨"system", systemPrompt⟩ :: (accum ++ [⟨"user", userMessage⟩])

/-- Result of parsing one SSE `data: ` frame body, abstracting
`json.loads(data_str)` and `obj["choices"][0]["delta"]["content"]`:
`done` is the literal `[DONE]`; `deltaContent c` parses with content `c`
(`c = ""` is Python-falsy and emits nothing); `noContent` parses but has no
usable content (`None`); `malformed raw` makes `json.loads` raise, and the
stripped frame text `raw` is forwarded verbatim. -/
inductive Payload
  | done
  | deltaContent (chunk : String)
  | noContent
  | malformed (raw : String)
deriving DecidableEq

/-- One line of the upstream streaming response body, as classified by
`event_generator` (lines 364-381): empty lines and lines without the
`data: ` marker are skipped. -/
inductive Line
  | empty
  | nonData (text : String)
  | data (p : Payload)
deriving DecidableEq

/-- State threaded through the relay: `accum` is `reply_accum` (parsed content
chunks only), `emitted` is every chunk yielded to the caller so far. -/
structure StreamAcc where
  accum : List String
  emitted : List String
deriving DecidableEq

/-- The inner `for line in resp.iter_lines()` loop of `event_generator`
(lines 364-381). Returns the updated state and whether the `[DONE]` break was
reached (in which case later lines are never seen). -/
def processLines : List Line → StreamAcc → StreamAcc × Bool
  | [], st => (st, false)
  | Line.empty :: rest, st => processLines rest st
  | Line.nonData _ :: rest, st => processLines rest st
  | Line.data Payload.done :: _, st => (st, true)
  | Line.data (Payload.deltaContent c) :: rest, st =>
    if c = "" then processLines rest st
    else processLines rest ⟨st.accum ++ [c], st.emitted ++ [c]⟩
  | Line.data Payload.noContent :: rest, st => processLines rest st
  | Line.data (Payload.malformed raw) :: rest, st =>
    processLines rest ⟨st.accum, st.emitted ++ [raw]⟩

/-- Outcome of one `requests.post(url, ..., stream=True)` call made by the
retry loop: `estFail` is a `requests.RequestException` raised by the post
itself (establishment failure, no lines delivered); `httpError` is a non-200
response; `ok ls midErr` is a 200 response delivering the lines `ls`, with
`midErr = some msg` when a `requests.RequestException` is raised while
iterating the body after those lines (a mid-stream transport failure). -/
inductive Attempt
  | estFail (msg : String)
  | httpError (status : Nat) (body : String)
  | ok (ls : List Line) (midErr : Option String)
deriving DecidableEq

/-- Everything observable about one run of `event_generator` before its
`finally` block: the chunks yielded to the caller, the final `reply_accum`,
how many upstream POSTs were issued, and the `time.sleep` backoff delays in
milliseconds. -/
structure GenOut where
  emitted : List String
  accum : List String
  posts : Nat
  sleeps : List Nat
deriving DecidableEq

/-- The backoff before retrying after failed attempt number `attempt`:
`time.sleep(0.6 * (2 ** (attempt - 1)))` (line 389), in milliseconds (the
float arithmetic is exact power-of-two scaling of 0.6 s). -/
def backoffMs (attempt : Nat) : Nat := 600 * 2 ^ (attempt - 1)

/-- The fixed DNS diagnostic of `event_generator` line 394. -/
def DNS_HINT : String :=
  "[ERROR] Cannot resolve OpenRouter host. Check your internet/DNS or OPENROUTER_BASE_URL."

/-- The terminal diagnostic chunk emitted on final retry exhaustion
(lines 392-396): a fixed DNS hint when the exception text indicates a
name-resolution failure, else a generic network-error message. -/
def netErrorChunk (msg : String) : String :=
  if pyContains msg "getaddrinfo failed" || pyContains msg "NameResolutionError" then DNS_HINT
  else "[ERROR] Network error: " ++ msg

/-- The chunk emitted on a non-200 upstream response (line 362). -/
def upstreamErrorChunk (status : Nat) (body : String) : String :=
  "[ERROR] Upstream error " ++ toString status ++ ": " ++ body

/-- The `for attempt in range(1, 4)` retry loop of `event_generator`
(lines 358-397), driven by the per-POST outcomes in `attempts`. Faithful
points: a `RequestException` is caught and retried (with backoff) whether it
came from establishment or from mid-body iteration, because the `try` wraps
the whole `with requests.post(...)` block; a non-200 response yields one error
chunk and returns; reaching `[DONE]` or the natural end of the body breaks out
of the retry loop; `reply_accum` is NOT reset between attempts. The `[]` case
is unreachable when `attempts` supplies an outcome for every POST the loop
makes. -/
def runGenLoop : List Attempt → Nat → StreamAcc → Nat → List Nat → GenOut
  | [], _, st, posts, sleeps => ⟨st.emitted, st.accum, posts, sleeps⟩
  | Attempt.estFail msg :: rest, attempt, st, posts, sleeps =>
    if attempt < 3 then
      runGenLoop rest (attempt + 1) st (posts + 1) (sleeps ++ [backoffMs attempt])
    else
      ⟨st.emitted ++ [netErrorChunk msg], st.accum, posts + 1, sleeps⟩
  | Attempt.httpError status body :: _, _, st, posts, sleeps =>
    ⟨st.emitted ++ [upstreamErrorChunk status body], st.accum, posts + 1, sleeps⟩
  | Attempt.ok ls none :: _, _, st, posts, sleeps =>
    ⟨(processLines ls st).1.emitted, (processLines ls st).1.accum, posts + 1, sleeps⟩
  | Attempt.ok ls (some msg) :: rest, attempt, st, posts, sleeps =>
    if (processLines ls st).2 then
      ⟨(processLines ls st).1.emitted, (processLines ls st).1.accum, posts + 1, sleeps⟩
    else if attempt < 3 then
      runGenLoop rest (attempt + 1) (processLines ls st).1 (posts + 1)
        (sleeps ++ [backoffMs attempt])
    else
      ⟨(processLines ls st).1.emitted ++ [netErrorChunk msg], (processLines ls st).1.accum,
        posts + 1, sleeps⟩

/-- One full run of the streaming relay body of `event_generator` (everything
before the `finally` block), starting at attempt 1 with empty `reply_accum`. -/
def runGen (attempts : List Attempt) : GenOut :=
  runGenLoop attempts 1 ⟨[], []⟩ 0 []

/-- The `finally` block of `event_generator` (lines 398-410): join and strip
`reply_accum`; if non-empty, commit the turn and invoke
`_persist_sessions_to_disk`. The returned flag records whether that persistence
call was triggered at all (the write itself further requires
`PERSIST_SESSIONS`). -/
def commitAfterStream (sessions : Sessions) (sid userMsg : String) (accum : List String)
    (maxTurns : Nat) : Sessions × Bool :=
  let full := pyStrip (String.join accum)
  if full = "" then (sessions, false)
  else (Sessions.set sessions sid (commitHist (Sessions.getHist sessions sid) userMsg full maxTurns), true)

/-- Process-wide configuration read by the endpoints:
`OPENROUTER_API_KEY` (with `""` standing for unset/`None`),
`DEFAULT_SYSTEM_PROMPT`, `SHOW_THINKING_SUMMARY`, `MAX_TURNS`,
`MAX_PROMPT_CHARS`. Persistence (`PERSIST_SESSIONS`) is modelled separately,
with the lock, in `lockedCommitTurn`/`lockedClear`. -/
structure Env where
  apiKey : String
  defaultSystemPrompt : String
  showThinkingSummary : Bool
  maxTurns : Nat
  maxPromptChars : Nat
deriving DecidableEq

/-- The request body `ChatRequest` (fields `model` and `temperature` are only
copied into the upstream payload and play no role in any claim; they are
elided). `clear : bool | None` is modelled by its truth value. -/
structure ChatReq where
  message : String
  system_prompt : Option String
  session_id : Option String
  clear : Bool
  show_thinking_summary : Option Bool
  api_key : Option String
deriving DecidableEq

/-- Stand-in for the `REASONING_GUIDE` constant of the source (a fixed literal
instruction appended to the system prompt when the thinking-summary toggle is
on). Its exact wording plays no role in any claim; only that it is some fixed
string matters. -/
def REASONING_GUIDE : String :=
  "\n\nWhen responding, first include a short reasoning summary block, then the final answer."

/-- Key resolution shared by `chat` (lines 183-184) and `chat_stream`
(lines 320-321): the stripped request key if non-empty (Python truthiness),
else the environment key; `""` means no effective key. -/
def effectiveApiKey (env : Env) (req : ChatReq) : String :=
  let requestApiKey := pyStrip (req.api_key.getD "")
  if requestApiKey = "" then env.apiKey else requestApiKey

/-- `session_id = req.session_id or os.urandom(8).hex()` (lines 194 and 328):
the client id when truthy, else the freshly generated hex id. -/
def resolveSessionId (req : ChatReq) (generatedSid : String) : String :=
  match req.session_id with
  | some s => if s = "" then generatedSid else s
  | none => generatedSid

/-- System-prompt resolution of the blocking `chat` (lines 188-191): request
override (falling back to the default when absent or empty), then the
per-request thinking-summary toggle falling back to the global one. -/
def resolvedSystemPrompt (env : Env) (req : ChatReq) : String :=
  let sp := match req.system_prompt with
    | some s => if s = "" then env.defaultSystemPrompt else s
    | none => env.defaultSystemPrompt
  let wantSummary := req.show_thinking_summary.getD env.showThinkingSummary
  if wantSummary then pyStrip (sp ++ REASONING_GUIDE) else sp

/-- System-prompt resolution of `chat_stream` (lines 325-327): unlike `chat`,
only the global `SHOW_THINKING_SUMMARY` is consulted, never the request
field. -/
def streamSystemPrompt (env : Env) (req : ChatReq) : String :=
  let sp := match req.system_prompt with
    | some s => if s = "" then env.defaultSystemPrompt else s
    | none => env.defaultSystemPrompt
  if env.showThinkingSummary then pyStrip (sp ++ REASONING_GUIDE) else sp

/-- Outcome of the single non-streaming upstream call of `chat` (line 236):
either a `requests.RequestException`, or a response with status, raw text, and
(for 200 responses) the parsed `choices[0].message.content` — `none` when the
lookup chain yields `None`. -/
inductive OnceResult
  | reqError (msg : String)
  | resp (status : Nat) (text : String) (content : Option String)
deriving DecidableEq

/-- What `chat` returns to the transport layer: an `HTTPException`, the
"Memory cleared." acknowledgement stream (with the session id in the
`x-session-id` header), or a `ChatResponse`. -/
inductive ChatOutcome
  | httpError (status : Nat) (detail : String)
  | cleared (sessionId : String)
  | replied (reply : String) (sessionId : String)
deriving DecidableEq

/-- Full observable effect of one blocking `chat` call: the outcome, the
session store afterwards, how many upstream POSTs were made, and the
`messages` payload sent upstream (`[]` when no call was made). -/
structure ChatResult where
  outcome : ChatOutcome
  sessions : Sessions
  posts : Nat
  sent : List Message
deriving DecidableEq

/-- The blocking `POST /chat` endpoint (lines 180-256), with the lock elided
(each locked block is one atomic state transition) and persistence modelled
separately (see `lockedCommitTurn`). Order of operations follows the source:
key check, prompt/session resolution, the pure-clear short-circuit, the
clear-with-message pop, prompt assembly from the (possibly cleared) history,
then the upstream call and the commit. -/
def chat (env : Env) (sessions : Sessions) (req : ChatReq) (generatedSid : String)
    (upstream : OnceResult) : ChatResult :=
  if effectiveApiKey env req = "" then
    ⟨ChatOutcome.httpError 400 "OpenRouter API key is required. Provide it in the request (api_key) or set OPENROUTER_API_KEY on the server.", sessions, 0, []⟩
  else
    let systemPrompt := resolvedSystemPrompt env req
    let sid := resolveSessionId req generatedSid
    if req.clear ∧ pyStrip req.message = "" then
      ⟨ChatOutcome.cleared sid, Sessions.pop sessions sid, 0, []⟩
    else
      let sessions1 := if req.clear then Sessions.pop sessions sid else sessions
      let history := Sessions.getHist sessions1 sid
      let messages := _build_messages systemPrompt history req.message env.maxTurns env.maxPromptChars
      match upstream with
      | OnceResult.reqError msg => ⟨ChatOutcome.httpError 502 msg, sessions1, 1, messages⟩
      | OnceResult.resp status text content =>
        if status ≠ 200 then ⟨ChatOutcome.httpError status text, sessions1, 1, messages⟩
        else
          match content with
          | none => ⟨ChatOutcome.httpError 502 "No reply from model", sessions1, 1, messages⟩
          | some reply =>
            if reply = "" then
              ⟨ChatOutcome.httpError 502 "No reply from model", sessions1, 1, messages⟩
            else
              ⟨ChatOutcome.replied reply sid,
                Sessions.set sessions1 sid (commitHist (Sessions.getHist sessions1 sid) req.message reply env.maxTurns),
                1, messages⟩

/-- What `POST /chat/stream` produces: a 400 before any streaming when no key
resolves, else the resolved session id (surfaced in the `x-session-id` header
before the first chunk), the upstream payload messages, the generator run, the
store after the `finally` commit, and whether persistence was triggered. -/
inductive StreamOutcome
  | keyError
  | stream (sessionId : String) (sent : List Message) (gen : GenOut)
      (finalSessions : Sessions) (persistTriggered : Bool)
deriving DecidableEq

/-- The session store after the call (for `keyError` nothing streams and the
store is untouched; the projection returns `[]` merely as a placeholder). -/
def StreamOutcome.sessionsAfter : StreamOutcome → Sessions
  | StreamOutcome.keyError => []
  | StreamOutcome.stream _ _ _ s _ => s

/-- Number of upstream POSTs issued by the generator. -/
def StreamOutcome.postsMade : StreamOutcome → Nat
  | StreamOutcome.keyError => 0
  | StreamOutcome.stream _ _ g _ _ => g.posts

/-- Whether the `finally` block invoked `_persist_sessions_to_disk`. -/
def StreamOutcome.persistTriggeredOf : StreamOutcome → Bool
  | StreamOutcome.keyError => false
  | StreamOutcome.stream _ _ _ _ p => p

/-- The chunks yielded to the caller. -/
def StreamOutcome.emittedOf : StreamOutcome → List String
  | StreamOutcome.keyError => []
  | StreamOutcome.stream _ _ g _ _ => g.emitted

/-- The streaming `POST /chat/stream` endpoint (lines 314-412): key check,
prompt/session resolution (note: NO clear handling exists on this path),
snapshot read, prompt assembly, then the generator run and its `finally`
commit. -/
def chat_stream (env : Env) (sessions : Sessions) (req : ChatReq) (generatedSid : String)
    (attempts : List Attempt) : StreamOutcome :=
  if effectiveApiKey env req = "" then StreamOutcome.keyError
  else
    let systemPrompt := streamSystemPrompt env req
    let sid := resolveSessionId req generatedSid
    let history := Sessions.getHist sessions sid
    let messages := _build_messages systemPrompt history req.message env.maxTurns env.maxPromptChars
    let gen := runGen attempts
    let committed := commitAfterStream sessions sid req.message gen.accum env.maxTurns
    StreamOutcome.stream sid messages gen committed.1 committed.2

/-- Model of acquiring Python's non-reentrant `threading.Lock`: acquiring a
lock the current thread already holds blocks forever (`none` = the operation
never returns). -/
def acquireLock (alreadyHeld : Bool) : Option Unit :=
  if alreadyHeld then none else some ()

/-- `_persist_sessions_to_disk` (lines 137-145) with the lock explicit: a
no-op unless `PERSIST_SESSIONS`; otherwise it enters `with _SESSION_LOCK:`
before writing the snapshot. The surrounding `try/except` catches I/O errors
(logged, non-fatal) but cannot catch a blocked `acquire`. -/
def _persist_sessions_to_disk (persistEnabled : Bool) (lockAlreadyHeld : Bool) : Option Unit :=
  if persistEnabled then
    match acquireLock lockAlreadyHeld with
    | none => none
    | some _ => some ()
  else some ()

/-- The locked commit block of `chat` (lines 244-253), as executed: enter
`with _SESSION_LOCK:` (free at entry), update the history, then call
`_persist_sessions_to_disk` WHILE STILL HOLDING the lock. `none` means the
block never completes. The streaming `finally` commit (lines 402-410) has the
identical shape. -/
def lockedCommitTurn (persistEnabled : Bool) (sessions : Sessions) (sid u a : String)
    (maxTurns : Nat) : Option Sessions :=
  match acquireLock false with
  | none => none
  | some _ =>
    let sessions2 := Sessions.set sessions sid (commitHist (Sessions.getHist sessions sid) u a maxTurns)
    match _persist_sessions_to_disk persistEnabled true with
    | none => none
    | some _ => some sessions2

/-- The locked clear block of `chat` (lines 198-200 and 207-209):
`with _SESSION_LOCK: _SESSIONS.pop(session_id, None); _persist_sessions_to_disk()`. -/
def lockedClear (persistEnabled : Bool) (sessions : Sessions) (sid : String) : Option Sessions :=
  match acquireLock false with
  | none => none
  | some _ =>
    let sessions2 := Sessions.pop sessions sid
    match _persist_sessions_to_disk persistEnabled true with
    | none => none
    | some _ => some sessions2


/-! ## Helper lemmas -/

theorem Sessions.getHist_set_self (s : Sessions) (sid : String) (h : List Message) :
    Sessions.getHist (Sessions.set s sid h) sid = h := by
  induction s with
  | nil => simp [Sessions.set, Sessions.getHist]
  | cons kv rest ih =>
    by_cases hk : kv.1 = sid
    · simp [Sessions.set, Sessions.getHist, hk]
    · simp [Sessions.set, Sessions.getHist, hk, ih]

theorem Sessions.getHist_pop_self (s : Sessions) (sid : String) :
    Sessions.getHist (Sessions.pop s sid) sid = [] := by
  induction s with
  | nil => simp [Sessions.pop, Sessions.getHist]
  | cons kv rest ih =>
    by_cases hk : kv.1 = sid
    · simp [Sessions.pop, hk, ih]
    · simp [Sessions.pop, Sessions.getHist, hk, ih]

theorem pySliceLast_length {α : Type} (l : List α) (m : Nat) (hm : m ≠ 0) :
    (pySliceLast l m).length = l.length - (l.length - m) := by
  simp [pySliceLast, hm]

theorem commitHist_length (hist : List Message) (u a : String) (mt : Nat) (hmt : 1 ≤ mt) :
    (commitHist hist u a mt).length = min (hist.length + 2) (2 * mt) := by
  simp only [commitHist]
  split
  · rw [pySliceLast_length _ _ (by omega)]
    simp only [List.length_append, List.length_cons, List.length_nil] at *
    omega
  · simp only [List.length_append, List.length_cons, List.length_nil] at *
    omega

theorem commitHist_suffix (hist : List Message) (u a : String) (mt : Nat) :
    List.IsSuffix (commitHist hist u a mt) (hist ++ [⟨"user", u⟩, ⟨"assistant", a⟩]) := by
  simp only [commitHist]
  split
  · by_cases h0 : mt * 2 = 0
    · simp [pySliceLast, h0]
    · simp only [pySliceLast, h0, if_neg]
      exact List.drop_suffix _ _
  · exact List.suffix_refl _

theorem commitHist_nil (u a : String) (mt : Nat) :
    commitHist [] u a mt = [⟨"user", u⟩, ⟨"assistant", a⟩] := by
  simp only [commitHist, List.nil_append, List.length_cons, List.length_nil]
  split
  · have h0 : mt * 2 = 0 := by omega
    simp [pySliceLast, h0]
  · rfl

theorem runCommits_parity_bound (mt : Nat) (hmt : 1 ≤ mt) (turns : List (String × String)) :
    (runCommits turns mt).length % 2 = 0 ∧ (runCommits turns mt).length ≤ 2 * mt := by
  suffices H : ∀ (h : List Message), h.length % 2 = 0 → h.length ≤ 2 * mt →
      (List.foldl (fun acc t => commitHist acc t.1 t.2 mt) h turns).length % 2 = 0 ∧
      (List.foldl (fun acc t => commitHist acc t.1 t.2 mt) h turns).length ≤ 2 * mt by
    exact H [] (by simp) (by simp)
  induction turns with
  | nil => intro h h1 h2; simpa using ⟨h1, h2⟩
  | cons t rest ih =>
    intro h h1 h2
    simp only [List.foldl_cons]
    exact ih _ (by rw [commitHist_length _ _ _ _ hmt]; omega)
      (by rw [commitHist_length _ _ _ _ hmt]; omega)

theorem charBudgetLoop_length_le (budget : Nat) (l : List Message) :
    ∀ (total : Nat) (accum : List Message),
      accum.length ≤ (charBudgetLoop budget l total accum).length := by
  induction l with
  | nil => intro total accum; simp [charBudgetLoop]
  | cons m rest ih =>
    intro total accum
    simp only [charBudgetLoop]
    split
    · exact le_refl _
    · calc accum.length ≤ (accum ++ [(⟨m.role, m.content⟩ : Message)]).length := by simp
        _ ≤ _ := ih _ _

theorem charBudgetLoop_cons_ne_nil (budget : Nat) (m : Message) (rest : List Message)
    (total : Nat) : charBudgetLoop budget (m :: rest) total [] ≠ [] := by
  simp only [charBudgetLoop]
  rw [if_neg (by simp)]
  simp only [List.nil_append]
  intro hnil
  have h := charBudgetLoop_length_le budget rest (total + m.content.length)
    [(⟨m.role, m.content⟩ : Message)]
  rw [hnil] at h
  simp at h

theorem pySliceLast_ne_nil {α : Type} (l : List α) (m : Nat) (hl : l ≠ []) :
    pySliceLast l m ≠ [] := by
  have hlen : 1 ≤ l.length := List.length_pos.mpr hl
  simp only [pySliceLast]
  split
  · exact hl
  · intro hd
    have := congrArg List.length hd
    simp [List.length_drop] at this
    omega

theorem build_messages_length (sp : String) (hist : List Message) (umsg : String)
    (mt mpc : Nat) (h : hist ≠ []) : 3 ≤ (_build_messages sp hist umsg mt mpc).length := by
  simp only [_build_messages]
  have htrim : (if 0 < mt * 2 then pySliceLast hist (mt * 2) else hist) ≠ [] := by
    split
    · exact pySliceLast_ne_nil _ _ h
    · exact h
  set trimmed := if 0 < mt * 2 then pySliceLast hist (mt * 2) else hist with htr
  obtain ⟨x, xs, hx⟩ : ∃ x xs, trimmed.reverse = x :: xs := by
    cases hrev : trimmed.reverse with
    | nil => exact absurd (by simpa using congrArg List.reverse hrev) htrim
    | cons x xs => exact ⟨x, xs, rfl⟩
  rw [hx]
  have h1 : 1 ≤ (charBudgetLoop (effectiveBudget mpc) (x :: xs) 0 []).length :=
    List.length_pos.mpr (charBudgetLoop_cons_ne_nil (effectiveBudget mpc) x xs 0)
  simp only [List.length_cons, List.length_append, List.length_reverse]
  omega

theorem build_messages_singleton (sp : String) (m : Message) (umsg : String) (mt mpc : Nat) :
    _build_messages sp [m] umsg mt mpc =
      [⟨"system", sp⟩, ⟨m.role, m.content⟩, ⟨"user", umsg⟩] := by
  have htrim : (if 0 < mt * 2 then pySliceLast [m] (mt * 2) else [m]) = [m] := by
    split
    · simp only [pySliceLast]
      split
      · rfl
      · have h1 : (1 : Nat) - mt * 2 = 0 := by omega
        simp [h1]
    · rfl
  simp only [_build_messages, htrim]
  simp [charBudgetLoop]

theorem build_messages_nil (sp um : String) (mt mpc : Nat) :
    _build_messages sp [] um mt mpc = [⟨"system", sp⟩, ⟨"user", um⟩] := by
  simp only [_build_messages, pySliceLast]
  split
  · split
    · simp [charBudgetLoop]
    · simp [charBudgetLoop]
  · simp [charBudgetLoop]

theorem processLines_sublist (ls : List Line) :
    ∀ st : StreamAcc, st.accum.Sublist st.emitted →
      (processLines ls st).1.accum.Sublist (processLines ls st).1.emitted := by
  induction ls with
  | nil => intro st h; exact h
  | cons l rest ih =>
    intro st h
    cases l with
    | empty => exact ih st h
    | nonData t => exact ih st h
    | data p =>
      cases p with
      | done => exact h
      | deltaContent c =>
        by_cases hc : c = ""
        · simp only [processLines, hc, if_pos rfl]
          exact ih st h
        · simp only [processLines, if_neg hc]
          exact ih _ (h.append (List.Sublist.refl [c]))
      | noContent => exact ih st h
      | malformed raw =>
        simp only [processLines]
        exact ih _ (h.trans (List.sublist_append_left _ _))

theorem runGenLoop_sublist (attempts : List Attempt) :
    ∀ (attempt : Nat) (st : StreamAcc) (posts : Nat) (sleeps : List Nat),
      st.accum.Sublist st.emitted →
      (runGenLoop attempts attempt st posts sleeps).accum.Sublist
        (runGenLoop attempts attempt st posts sleeps).emitted := by
  induction attempts with
  | nil => intro attempt st posts sleeps h; exact h
  | cons a rest ih =>
    intro attempt st posts sleeps h
    cases a with
    | estFail msg =>
      simp only [runGenLoop]
      split
      · exact ih _ _ _ _ h
      · exact h.trans (List.sublist_append_left _ _)
    | httpError status body =>
      simp only [runGenLoop]
      exact h.trans (List.sublist_append_left _ _)
    | ok ls midErr =>
      cases midErr with
      | none =>
        simp only [runGenLoop]
        exact processLines_sublist ls st h
      | some msg =>
        simp only [runGenLoop]
        split
        · exact processLines_sublist ls st h
        · split
          · exact ih _ _ _ _ (processLines_sublist ls st h)
          · exact (processLines_sublist ls st h).trans (List.sublist_append_left _ _)

theorem runGen_sublist (attempts : List Attempt) :
    (runGen attempts).accum.Sublist (runGen attempts).emitted :=
  runGenLoop_sublist attempts 1 ⟨[], []⟩ 0 [] (List.Sublist.refl [])


/-! ## Claim theorems -/

/-- Claim C1 (code bug): the claim states that every turn commit and every
clear with persistence enabled terminates, the snapshot write never blocking
the request. In the code, however, the commit and clear blocks call
`_persist_sessions_to_disk` while already holding the non-reentrant
`_SESSION_LOCK`, which that function re-acquires: with persistence enabled the
operation never returns (`none`), for every store, session and input. -/
theorem c1_commit_with_persistence_never_returns :
    ∀ (sessions : Sessions) (sid u a : String) (mt : Nat),
      lockedCommitTurn true sessions sid u a mt = none ∧
      lockedClear true sessions sid = none := by
  intro sessions sid u a mt
  exact ⟨rfl, rfl⟩

/-- Claim C2 (code bug): the claim states that a transport failure occurring
after the stream has emitted chunks is never retried. In the code the `try`
of the retry loop wraps the whole body iteration, so a mid-stream
`requests.RequestException` is caught and retried: here attempt 1 emits the
content chunk "Hello" and then fails mid-stream, and the run issues a second
upstream POST (posts = 2) after a 600 ms backoff. -/
theorem c2_retry_after_emitted_chunk :
    runGen [Attempt.ok [Line.data (Payload.deltaContent "Hello")] (some "Connection reset by peer"),
      Attempt.ok [Line.data Payload.done] none] = ⟨["Hello"], ["Hello"], 2, [600]⟩ := by
  decide

/-- Claim C3 counterexample: the claim states the committed assistant content
equals the concatenation of ALL chunks emitted to the caller, including
malformed frames forwarded verbatim. Concretely, a stream that forwards the
malformed frame "garbage" and the parsed content chunk "hi " emits
["garbage", "hi "] (concatenation "garbagehi ") but commits assistant content
"hi": the forwarded frame is excluded and the result is stripped. -/
theorem c3_committed_is_not_emitted_concat :
    Sessions.getHist (commitAfterStream [] "s" "q"
      (runGen [Attempt.ok [Line.data (Payload.malformed "garbage"),
        Line.data (Payload.deltaContent "hi "), Line.data Payload.done] none]).accum 10).1 "s" =
      [⟨"user", "q"⟩, ⟨"assistant", "hi"⟩] ∧
    String.join (runGen [Attempt.ok [Line.data (Payload.malformed "garbage"),
      Line.data (Payload.deltaContent "hi "), Line.data Payload.done] none]).emitted =
      "garbagehi " ∧
    ("hi" : String) ≠ "garbagehi " := by
  decide

/-- Claim C3 as amended: the committed assistant content equals the
whitespace-stripped concatenation, in emission order, of the parsed content
chunks (`reply_accum`) — a subsequence of the emitted chunks that excludes
forwarded malformed frames and error chunks — and a commit happens only when
that stripped concatenation is non-empty: when it is empty (no content chunk,
or whitespace-only content chunks), the store is untouched and persistence is
not triggered. -/
theorem c3_commit_is_stripped_content_chunks (attempts : List Attempt)
    (sessions : Sessions) (sid umsg : String) (mt : Nat) :
    (runGen attempts).accum.Sublist (runGen attempts).emitted ∧
    (pyStrip (String.join (runGen attempts).accum) ≠ "" →
      Sessions.getHist (commitAfterStream sessions sid umsg (runGen attempts).accum mt).1 sid =
        commitHist (Sessions.getHist sessions sid) umsg
          (pyStrip (String.join (runGen attempts).accum)) mt) ∧
    (pyStrip (String.join (runGen attempts).accum) = "" →
      commitAfterStream sessions sid umsg (runGen attempts).accum mt = (sessions, false)) := by
  refine ⟨runGen_sublist attempts, fun h => ?_, fun h => ?_⟩
  · simp only [commitAfterStream, if_neg h]
    exact Sessions.getHist_set_self _ _ _
  · simp [commitAfterStream, h]

/-- Witness for `c3_commit_is_stripped_content_chunks`, exercising both
implications: a stream emitting the single content chunk "hello" commits
assistant content "hello", and a stream emitting only the whitespace content
chunk " " (accumulated, but stripped to empty) commits nothing and leaves the
store untouched. -/
theorem c3_commit_is_stripped_content_chunks_witness :
    (Sessions.getHist (commitAfterStream [] "s" "q"
      (runGen [Attempt.ok [Line.data (Payload.deltaContent "hello")] none]).accum 10).1 "s" =
      commitHist (Sessions.getHist [] "s") "q"
        (pyStrip (String.join
          (runGen [Attempt.ok [Line.data (Payload.deltaContent "hello")] none]).accum)) 10) ∧
    commitAfterStream [("t", [⟨"user", "x"⟩, ⟨"assistant", "y"⟩])] "t" "q"
        (runGen [Attempt.ok [Line.data (Payload.deltaContent " ")] none]).accum 10 =
      ([("t", [⟨"user", "x"⟩, ⟨"assistant", "y"⟩])], false) :=
  ⟨(c3_commit_is_stripped_content_chunks
      [Attempt.ok [Line.data (Payload.deltaContent "hello")] none] [] "s" "q" 10).2.1
      (by decide),
   (c3_commit_is_stripped_content_chunks
      [Attempt.ok [Line.data (Payload.deltaContent " ")] none]
      [("t", [⟨"user", "x"⟩, ⟨"assistant", "y"⟩])] "t" "q" 10).2.2 (by decide)⟩

/-- Claim C4 counterexample: the claim quantifies over every configured
MaxTurns, but with `MAX_TURNS = 0` a single commit to an empty session yields
history length 2, and 2 ≤ 2 × 0 fails: the Python slice `hist[-0:]` is the
whole list, so nothing is ever trimmed. -/
theorem c4_maxturns_zero_violates_bound :
    (commitHist [] "hi" "there" 0).length = 2 ∧
    ¬((commitHist [] "hi" "there" 0).length ≤ 2 * 0) := by
  decide

/-- Claim C4 as amended: for every configured MaxTurns ≥ 1 (the default is
10), a session that starts empty has, after every sequence of successful turn
commits, an even history length of at most 2 × MaxTurns, and each commit's
truncation discards only the oldest messages (the stored history is a suffix
of the appended history). -/
theorem c4_parity_and_bound_amended :
    ∀ mt : Nat, 1 ≤ mt →
      (∀ turns : List (String × String),
        (runCommits turns mt).length % 2 = 0 ∧ (runCommits turns mt).length ≤ 2 * mt) ∧
      (∀ (hist : List Message) (u a : String),
        List.IsSuffix (commitHist hist u a mt) (hist ++ [⟨"user", u⟩, ⟨"assistant", a⟩])) := by
  intro mt hmt
  exact ⟨fun turns => runCommits_parity_bound mt hmt turns,
    fun hist u a => commitHist_suffix hist u a mt⟩

/-- Witness for `c4_parity_and_bound_amended` at MaxTurns = 2 with three
committed turns. -/
theorem c4_parity_and_bound_amended_witness :
    (runCommits [("a", "b"), ("c", "d"), ("e", "f")] 2).length % 2 = 0 ∧
    (runCommits [("a", "b"), ("c", "d"), ("e", "f")] 2).length ≤ 2 * 2 :=
  (c4_parity_and_bound_amended 2 (by decide)).1 [("a", "b"), ("c", "d"), ("e", "f")]

/-- Claim C5 counterexample: the claim states a streaming request with clear
and no message content removes the session and answers with the fixed
acknowledgement with no upstream call. `chat_stream` has no clear handling at
all: on a clear request with empty message for existing session "s", the
session entry is still present after the call and one upstream POST was
issued. -/
theorem c5_stream_ignores_clear :
    Sessions.hasKey (StreamOutcome.sessionsAfter (chat_stream ⟨"k", "sys", false, 10, 6000⟩
      [("s", [⟨"user", "a"⟩, ⟨"assistant", "b"⟩])] ⟨"", none, some "s", true, none, none⟩ "g"
      [Attempt.httpError 500 "boom"])) "s" = true ∧
    StreamOutcome.postsMade (chat_stream ⟨"k", "sys", false, 10, 6000⟩
      [("s", [⟨"user", "a"⟩, ⟨"assistant", "b"⟩])] ⟨"", none, some "s", true, none, none⟩ "g"
      [Attempt.httpError 500 "boom"]) = 1 := by
  decide

/-- Claim C5 as amended: only the blocking flow implements the clear
short-circuit — given an effective key, a blocking request with clear and no
message content removes the session, returns the fixed acknowledgement, and
makes no upstream call; the streaming flow accepts the same inputs but ignores
the clear flag entirely (its behaviour is identical with clear set or
unset). -/
theorem c5_clear_shortcircuit_blocking_only :
    (∀ (env : Env) (sessions : Sessions) (req : ChatReq) (gsid : String)
        (upstream : OnceResult), effectiveApiKey env req ≠ "" → req.clear = true →
        pyStrip req.message = "" →
        chat env sessions req gsid upstream =
          ⟨ChatOutcome.cleared (resolveSessionId req gsid),
            Sessions.pop sessions (resolveSessionId req gsid), 0, []⟩) ∧
    (∀ (env : Env) (sessions : Sessions) (msg : String) (sp sid : Option String)
        (sts : Option Bool) (key : Option String) (gsid : String)
        (attempts : List Attempt),
        chat_stream env sessions ⟨msg, sp, sid, true, sts, key⟩ gsid attempts =
        chat_stream env sessions ⟨msg, sp, sid, false, sts, key⟩ gsid attempts) := by
  constructor
  · intro env sessions req gsid upstream hKey hClear hMsg
    simp only [chat, if_neg hKey]
    rw [if_pos ⟨hClear, hMsg⟩]
  · intro env sessions msg sp sid sts key gsid attempts
    rfl

/-- Witness for `c5_clear_shortcircuit_blocking_only` at a concrete clear
request for existing session "s". -/
theorem c5_clear_shortcircuit_blocking_only_witness :
    chat ⟨"k", "sys", false, 10, 6000⟩ [("s", [⟨"user", "a"⟩, ⟨"assistant", "b"⟩])]
        ⟨"", none, some "s", true, none, none⟩ "g" (OnceResult.reqError "x") =
      ⟨ChatOutcome.cleared (resolveSessionId ⟨"", none, some "s", true, none, none⟩ "g"),
        Sessions.pop [("s", [⟨"user", "a"⟩, ⟨"assistant", "b"⟩])]
          (resolveSessionId ⟨"", none, some "s", true, none, none⟩ "g"), 0, []⟩ :=
  c5_clear_shortcircuit_blocking_only.1 ⟨"k", "sys", false, 10, 6000⟩
    [("s", [⟨"user", "a"⟩, ⟨"assistant", "b"⟩])] ⟨"", none, some "s", true, none, none⟩ "g"
    (OnceResult.reqError "x") (by decide) (by decide) (by decide)

/-- Claim C6 (confirmed): when all 3 stream-establishment attempts fail with a
transport error, the attempts are separated by backoff sleeps of 600 ms then
1200 ms, three POSTs are made, and the chunk sequence is exactly one terminal
diagnostic chunk — the fixed DNS hint when the failure text indicates
name resolution, the generic network message otherwise — with no content chunk
before it and an empty `reply_accum`. -/
theorem c6_retry_exhaustion :
    (∀ m1 m2 m3 : String,
      runGen [Attempt.estFail m1, Attempt.estFail m2, Attempt.estFail m3] =
        ⟨[netErrorChunk m3], [], 3, [600, 1200]⟩) ∧
    netErrorChunk "NameResolutionError: lookup failed" = DNS_HINT ∧
    netErrorChunk "connection timed out" = "[ERROR] Network error: connection timed out" := by
  refine ⟨fun m1 m2 m3 => rfl, by decide, by decide⟩

/-- Claim C7 (confirmed): a streaming request (with an effective key) whose
generator run accumulates zero content chunks leaves the session store exactly
as it was and never invokes the snapshot write. -/
theorem c7_no_partial_commit (env : Env) (sessions : Sessions) (req : ChatReq)
    (gsid : String) (attempts : List Attempt) (hKey : effectiveApiKey env req ≠ "")
    (hAcc : (runGen attempts).accum = []) :
    StreamOutcome.sessionsAfter (chat_stream env sessions req gsid attempts) = sessions ∧
    StreamOutcome.persistTriggeredOf (chat_stream env sessions req gsid attempts) = false := by
  simp only [chat_stream, if_neg hKey, commitAfterStream, hAcc]
  simp [StreamOutcome.sessionsAfter, StreamOutcome.persistTriggeredOf, pyStrip, String.join]

/-- Witness for `c7_no_partial_commit`: an immediate upstream 500 yields no
content chunk, and the history of session "s" is untouched. -/
theorem c7_no_partial_commit_witness :
    StreamOutcome.sessionsAfter (chat_stream ⟨"k", "sys", false, 10, 6000⟩
      [("s", [⟨"user", "a"⟩, ⟨"assistant", "b"⟩])] ⟨"hello", none, some "s", false, none, none⟩
      "g" [Attempt.httpError 500 "oops"]) = [("s", [⟨"user", "a"⟩, ⟨"assistant", "b"⟩])] ∧
    StreamOutcome.persistTriggeredOf (chat_stream ⟨"k", "sys", false, 10, 6000⟩
      [("s", [⟨"user", "a"⟩, ⟨"assistant", "b"⟩])] ⟨"hello", none, some "s", false, none, none⟩
      "g" [Attempt.httpError 500 "oops"]) = false :=
  c7_no_partial_commit ⟨"k", "sys", false, 10, 6000⟩
    [("s", [⟨"user", "a"⟩, ⟨"assistant", "b"⟩])] ⟨"hello", none, some "s", false, none, none⟩
    "g" [Attempt.httpError 500 "oops"] (by decide) (by decide)

/-- Claim C8 (confirmed): for every non-empty history the assembled prompt
contains at least one historical message (its length is at least 3: system,
something historical, new user message); in particular a single historical
message longer than the effective budget is still included verbatim. -/
theorem c8_minimum_inclusion (sp : String) (hist : List Message) (umsg : String)
    (mt mpc : Nat) (h : hist ≠ []) :
    3 ≤ (_build_messages sp hist umsg mt mpc).length ∧
    (∀ m : Message, hist = [m] → effectiveBudget mpc < m.content.length →
      _build_messages sp hist umsg mt mpc =
        [⟨"system", sp⟩, ⟨m.role, m.content⟩, ⟨"user", umsg⟩]) := by
  refine ⟨build_messages_length sp hist umsg mt mpc h, ?_⟩
  intro m hm _
  rw [hm]
  exact build_messages_singleton sp m umsg mt mpc

set_option maxRecDepth 4000 in
/-- Witness for `c8_minimum_inclusion`: a single 1001-character message
exceeds the effective budget 1000 (MaxPromptChars = 500) and is still the
sole historical message in the assembled prompt. -/
theorem c8_minimum_inclusion_witness :
    3 ≤ (_build_messages "sys" [⟨"user", String.mk (List.replicate 1001 'a')⟩] "q" 10 500).length ∧
    _build_messages "sys" [⟨"user", String.mk (List.replicate 1001 'a')⟩] "q" 10 500 =
      [⟨"system", "sys"⟩, ⟨"user", String.mk (List.replicate 1001 'a')⟩, ⟨"user", "q"⟩] := by
  have h := c8_minimum_inclusion "sys" [⟨"user", String.mk (List.replicate 1001 'a')⟩]
    "q" 10 500 (by decide)
  refine ⟨h.1, h.2 ⟨"user", String.mk (List.replicate 1001 'a')⟩ rfl ?_⟩
  show effectiveBudget 500 < (String.mk (List.replicate 1001 'a')).length
  rw [String.length, List.length_replicate]
  decide

/-- Claim C9 (confirmed): the effective character budget of the prompt
assembler is exactly 1000 whenever MaxPromptChars is configured below 1000,
and the configured value itself from 1000 upward. -/
theorem c9_budget_floor :
    ∀ c : Nat, (c < 1000 → effectiveBudget c = 1000) ∧ (1000 ≤ c → effectiveBudget c = c) := by
  intro c
  constructor
  · intro h
    simp only [effectiveBudget]
    omega
  · intro h
    simp only [effectiveBudget]
    omega

/-- Witness for `c9_budget_floor` at 500 (clamped to 1000) and 6000 (kept). -/
theorem c9_budget_floor_witness :
    effectiveBudget 500 = 1000 ∧ effectiveBudget 6000 = 6000 :=
  ⟨(c9_budget_floor 500).1 (by decide), (c9_budget_floor 6000).2 (by decide)⟩

/-- Claim C10 (confirmed): a blocking request with clear set and a non-empty
message (and an effective key) removes the prior history before the upstream
call, assembles the prompt from empty history (system message and the new
user message only), and on a successful non-empty reply leaves the session
holding exactly the one new turn. -/
theorem c10_clear_with_message (env : Env) (sessions : Sessions) (req : ChatReq)
    (gsid : String) (text reply : String) (hKey : effectiveApiKey env req ≠ "")
    (hClear : req.clear = true) (hMsg : pyStrip req.message ≠ "") (hReply : reply ≠ "") :
    chat env sessions req gsid (OnceResult.resp 200 text (some reply)) =
      ⟨ChatOutcome.replied reply (resolveSessionId req gsid),
        Sessions.set (Sessions.pop sessions (resolveSessionId req gsid))
          (resolveSessionId req gsid) [⟨"user", req.message⟩, ⟨"assistant", reply⟩],
        1,
        [⟨"system", resolvedSystemPrompt env req⟩, ⟨"user", req.message⟩]⟩ := by
  have hcond : ¬(req.clear = true ∧ pyStrip req.message = "") := fun hc => hMsg hc.2
  simp only [chat, if_neg hKey, if_neg hcond, hClear, if_true, ite_true]
  rw [Sessions.getHist_pop_self, build_messages_nil, commitHist_nil]
  simp [hReply, hMsg]

/-- Witness for `c10_clear_with_message`: clearing session "s" while asking
"hello" commits exactly the new turn ("hello", "world"). -/
theorem c10_clear_with_message_witness :
    chat ⟨"k", "sys", false, 10, 6000⟩ [("s", [⟨"user", "a"⟩, ⟨"assistant", "b"⟩])]
        ⟨"hello", none, some "s", true, none, none⟩ "g"
        (OnceResult.resp 200 "raw" (some "world")) =
      ⟨ChatOutcome.replied "world"
          (resolveSessionId ⟨"hello", none, some "s", true, none, none⟩ "g"),
        Sessions.set (Sessions.pop [("s", [⟨"user", "a"⟩, ⟨"assistant", "b"⟩])]
            (resolveSessionId ⟨"hello", none, some "s", true, none, none⟩ "g"))
          (resolveSessionId ⟨"hello", none, some "s", true, none, none⟩ "g")
          [⟨"user", "hello"⟩, ⟨"assistant", "world"⟩],
        1,
        [⟨"system", resolvedSystemPrompt ⟨"k", "sys", false, 10, 6000⟩
            ⟨"hello", none, some "s", true, none, none⟩⟩, ⟨"user", "hello"⟩]⟩ :=
  c10_clear_with_message ⟨"k", "sys", false, 10, 6000⟩
    [("s", [⟨"user", "a"⟩, ⟨"assistant", "b"⟩])] ⟨"hello", none, some "s", true, none, none⟩
    "g" "raw" "world" (by decide) (by decide) (by decide) (by decide)

end Chatbot
